import Mathlib

/-!
A shallow embedding of `src/pages/index.tsx` of the preview-mode demo.

The page has two sides:

* a build/request-time side, `getStaticProps`, which in Preview mode fetches
  the snapshot object `<snapshotId>.json` from an S3 blob store, parses it as a
  JSON array of `{id, innerText}` records, and turns failures into error props
  inside a `try`/`catch`;
* a client side, the `Home` component, which renders a fixed list of
  `Malleable` regions with the fetched edits overlaid, and a `share` action
  that scrapes the editable regions from the DOM and POSTs them to the
  create-snapshot endpoint under a single-flight guard.

External effects (the S3 network call, the DOM, the JSON codec of the
JavaScript runtime) are modelled by their observable behaviour: a store is a
function from keys to results, a DOM is the document-ordered list of candidate
elements, and a stored blob either parses to a list of field edits or is
malformed.
-/

namespace PreviewDemo

/-- A field edit as serialized by the client (`{ id, innerText }` in
`index.tsx` line 92) and stored in the snapshot JSON array. -/
structure FieldEdit where
  id : String
  innerText : String
deriving DecidableEq, Repr

/-- The body of a stored blob, abstracting the JSON codec: a blob either is
the JSON array of a list of field edits, or is malformed (so that
`JSON.parse` on it throws). -/
inductive Body where
  | json (contents : List FieldEdit)
  | malformed
deriving DecidableEq, Repr

/-- `JSON.parse(object.Body.toString())` (line 43): succeeds exactly on
well-formed blobs. -/
def jsonParse : Body → Option (List FieldEdit)
  | Body.json contents => some contents
  | Body.malformed => none

/-- An error thrown by the store client. `statusCode` is the HTTP status when
present; exceptions not coming from S3 (such as a JSON `SyntaxError`) carry
none. -/
structure S3Error where
  statusCode : Option Nat
deriving DecidableEq, Repr

/-- The observable behaviour of the blob store: each key either yields a blob
or an error. -/
def Store : Type := String → Except S3Error Body

/-- `put` of the blob store: stores `body` under `key`, overwriting any prior
value and leaving every other key unchanged. -/
def putObject (store : Store) (key : String) (body : Body) : Store :=
  fun k => if k = key then Except.ok body else store k

/-- The props returned by `getStaticProps`, with `Option` marking fields that
are absent on some return paths of the TypeScript object literals. -/
structure Props where
  isPreview : Bool
  hasError : Bool
  message : Option String
  snapshotId : Option String
  contents : Option (List FieldEdit)
deriving DecidableEq, Repr

/-- Line 56 of `index.tsx`. -/
def msgNotFound : String := "The requested preview edit does not exist!"

/-- Line 57 of `index.tsx`. -/
def msgUnknown : String :=
  "An unknown error has occurred. Please refresh the page or exit Preview Mode."

/-- The `{ props: { isPreview: false } }` return (line 62). -/
def normalProps : Props :=
  { isPreview := false, hasError := false, message := none
    snapshotId := none, contents := none }

/-- The catch-branch props (lines 48-59). -/
def errorProps (msg : String) : Props :=
  { isPreview := false, hasError := true, message := some msg
    snapshotId := none, contents := none }

/-- The successful preview props (lines 44-46). -/
def previewProps (sid : String) (contents : List FieldEdit) : Props :=
  { isPreview := true, hasError := false, message := none
    snapshotId := some sid, contents := some contents }

/-- `getStaticProps` (lines 22-63): in Preview mode, fetch
`<snapshotId>.json`, parse it, and return preview props; any exception from
the fetch or the parse is caught, and the catch branch inspects
`e.statusCode === 403` to pick the message (a parse error has no status
code). The embedding is a total function: the `try`/`catch` means no
exception escapes. -/
def getStaticProps (preview : Bool) (snapshotId : String) (store : Store) :
    Props :=
  if preview then
    match store (snapshotId ++ ".json") with
    | Except.ok body =>
      match jsonParse body with
      | some contents => previewProps snapshotId contents
      | none => errorProps msgUnknown
    | Except.error e =>
      errorProps (if e.statusCode = some 403 then msgNotFound else msgUnknown)
  else normalProps

/-! ## The rendered page -/

/-- `const edits = props.isPreview ? props.contents : []` (line 112). -/
def homeEdits (props : Props) : List FieldEdit :=
  if props.isPreview then props.contents.getD [] else []

/-- A `Malleable` region of the page: its stable `id` and its default
(children) text. -/
structure Region where
  id : String
  defaultText : String
deriving DecidableEq, Repr

/-- The edit applied to a region: the first element of `edits` whose `id`
matches. -/
def findEdit (edits : List FieldEdit) (rid : String) : Option FieldEdit :=
  edits.find? (fun e => e.id == rid)

/-- Modelled from the spec: the `Malleable` component
(`src/components/malleable`, not present under `src/`) renders each `Edit`'s
text overlaid onto the page region whose identifier matches `fieldId`;
regions with no matching edit render their default content. -/
def renderRegion (edits : List FieldEdit) (r : Region) : String :=
  match findEdit edits r.id with
  | some e => e.innerText
  | none => r.defaultText

/-- The fixed `Malleable` regions of the `Home` page, in document order, with
their default children flattened to plain text (lines 131-265). -/
def pageRegions : List Region :=
  [ { id := "title", defaultText := "My Static Site" }
  , { id := "feature-1-emoji", defaultText := "⚡" }
  , { id := "feature-1-text", defaultText := "Blazing fast" }
  , { id := "feature-2-emoji", defaultText := "📡" }
  , { id := "feature-2-text", defaultText := "Always available" }
  , { id := "feature-3-emoji", defaultText := "🏎" }
  , { id := "feature-3-text", defaultText := "Lighthouse 100" }
  , { id := "title-2", defaultText :=
        "This demonstrates a static website generated using Next.js new Static Site Generation (SSG)." }
  , { id := "explanation-1-inspect", defaultText :=
        "To inspect the response from our edge network, run:" }
  , { id := "explanation-1-pre-curl", defaultText :=
        "curl -sI https://preview.ssg.how | grep x-now" }
  , { id := "explanation-1-pre-response", defaultText :=
        "x-now-cache: HIT x-now-trace: sfo1 x-now-id: sfo1:7c7lc-1583269874370-6a496f5a4e91" }
  , { id := "explanation-2", defaultText :=
        "When people visit this site, the response always comes instantly from their nearest location." }
  , { id := "explanation-3", defaultText :=
        "Unlike traditional static solutions, however, you can generate previews of edits that you can share with anyone you choose." }
  , { id := "explanation-4", defaultText :=
        "This makes Next.js the most optimal framework to integrate into your Headless CMS workflow." } ]

/-- What the `Home` component renders, observably (lines 114-279). -/
structure RenderedPage where
  /-- The alert bar with the exit link (line 126-130), shown when
  `props.isPreview || props.hasError`. -/
  showsPreviewBar : Bool
  /-- An explanatory error message rendered to the user, if any. -/
  bannerMessage : Option String
  /-- Each region's id paired with the text it renders. -/
  regionTexts : List (String × String)
  /-- The snapshot id of the `ShareLinkDialog`, when the dialog is shown
  (line 119: `currentSnapshotId && ...`, so a null, undefined or empty id
  shows no dialog). -/
  dialogSnapshotId : Option String
deriving DecidableEq, Repr

/-- The `Home` render as a function of the props and the
`currentSnapshotId` client state. `props.message` is rendered nowhere in the
JSX (the comment on line 113 reads
`TODO: handle props.message when props.hasError`), so `bannerMessage` is
`none` on every path. -/
def homeRender (props : Props) (currentSnapshotId : Option String) :
    RenderedPage :=
  { showsPreviewBar := props.isPreview || props.hasError
    bannerMessage := none
    regionTexts :=
      pageRegions.map (fun r => (r.id, renderRegion (homeEdits props) r))
    dialogSnapshotId :=
      match currentSnapshotId with
      | some sid => if sid = "" then none else some sid
      | none => none }

/-! ## Edit capture -/

/-- A candidate element of the rendered document, in document order: the
`id` of its parent container (when the parent has an `id` attribute), whether
the element carries `contenteditable="true"`, and its current plain text. -/
structure DomRegion where
  parentId : Option String
  contentEditable : Bool
  innerText : String
deriving DecidableEq, Repr

/-- Whether an element is matched by the selector
`"[id] > [contenteditable=true]"` (line 89). -/
def isCaptured (el : DomRegion) : Bool :=
  el.contentEditable && el.parentId.isSome

/-- Edit capture (lines 89-92): the selector keeps, in document order, the
elements with `contenteditable="true"` whose parent has an `id`, and each is
mapped to `{ id: parentNode.id, innerText }`. -/
def captureEdits (dom : List DomRegion) : List FieldEdit :=
  dom.filterMap (fun el =>
    match el.parentId, el.contentEditable with
    | some pid, true => some { id := pid, innerText := el.innerText }
    | _, _ => none)

/-! ## The client share state machine -/

/-- The client state of `Home` that the share flow touches: the
`hasSaveRequest` ref, the `isSharingView` state, the `currentSnapshotId`
state, and a count of the network writes issued so far (one per `fetch` of
`/api/save`). -/
structure ClientState where
  hasSaveRequest : Bool
  isSharingView : Bool
  currentSnapshotId : Option String
  fetchCount : Nat
deriving DecidableEq, Repr

/-- The initial client state (`useRef(false)`, `useState(false)`,
`useState(null)`). -/
def initialClientState : ClientState :=
  { hasSaveRequest := false, isSharingView := false
    currentSnapshotId := none, fetchCount := 0 }

/-- `setSharing` (lines 78-84): sets the ref and the view state together,
synchronously. -/
def setSharing (s : ClientState) (sharing : Bool) : ClientState :=
  { s with hasSaveRequest := sharing, isSharingView := sharing }

/-- The synchronous part of `share` (lines 85-99): if a save request is
outstanding, return immediately (no write); otherwise set the single-flight
flag, capture the edits, and issue the POST. The second component is the
body of the POST when one was issued. -/
def share (dom : List DomRegion) (s : ClientState) :
    ClientState × Option (List FieldEdit) :=
  if s.hasSaveRequest then (s, none)
  else
    let s1 := setSharing s true
    ({ s1 with fetchCount := s1.fetchCount + 1 }, some (captureEdits dom))

/-- The parsed JSON body of a response of the create-snapshot endpoint; its
`snapshotId` field may be absent. -/
structure SaveBody where
  snapshotId : Option String
deriving DecidableEq, Repr

/-- A settled response of the `fetch` of `/api/save`: its HTTP status and
its body as JSON, `none` when `res.json()` rejects. -/
structure SaveResponse where
  status : Nat
  jsonBody : Option SaveBody
deriving DecidableEq, Repr

/-- The continuation of `share` once the fetch settles (lines 100-109):
`res.json()` is called without inspecting `res.ok` (the comment on line 101
reads `TODO: handle !res.ok`); when the body parses, its `snapshotId` is
stored with `setSnapshotId`; the `finally` clears the single-flight flag. -/
def resolveShare (s : ClientState) (resp : SaveResponse) : ClientState :=
  let s1 :=
    match resp.jsonBody with
    | some body => { s with currentSnapshotId := body.snapshotId }
    | none => s
  setSharing s1 false

/-- Whether the `ShareLinkDialog` is shown (line 119:
`currentSnapshotId && ...`), so shown exactly when `currentSnapshotId` is a
non-empty string. -/
def dialogShown (s : ClientState) : Bool :=
  match s.currentSnapshotId with
  | some sid => !(sid == "")
  | none => false

/-! ## Startup configuration and the snapshot service -/

/-- The recognized configuration options of the environment. -/
structure Env where
  awsAccessKeyId : Option String
  awsSecretAccessKey : Option String
  awsBucket : Option String
deriving DecidableEq, Repr

/-- The constructed store client value. -/
structure S3Client where
  accessKeyId : Option String
  secretAccessKey : Option String
deriving DecidableEq, Repr

/-- Module-level startup (lines 15-20): `new S3({ credentials: ... })` reads
the two credential variables, performs no validation, and cannot throw; the
bucket variable is not consulted here (it is read on line 38, inside
`getStaticProps`, at each store access). -/
def initS3 (env : Env) : Except String S3Client :=
  Except.ok { accessKeyId := env.awsAccessKeyId
              secretAccessKey := env.awsSecretAccessKey }

/-- Modelled from the spec: the create-snapshot endpoint (`api/save`, not
present under `src/`) assigns a snapshot identifier, serializes the edit
batch as a JSON array of `{id, innerText}`, and stores it in the blob store
under the key `snapshotId + ".json"`. -/
def createSnapshot (store : Store) (snapshotId : String)
    (edits : List FieldEdit) : Store :=
  putObject store (snapshotId ++ ".json") (Body.json edits)

/-! ## Helper lemmas -/

/-- Concrete stores used by the concrete instances below. -/
def store403 : Store := fun _ => Except.error { statusCode := some 403 }

def storeDown : Store := fun _ => Except.error { statusCode := some 500 }

def storeMalformed : Store := fun _ => Except.ok Body.malformed

/-- A settled save response with a failure status whose error body happens
to be JSON carrying a `snapshotId` field. -/
def failResponse : SaveResponse :=
  { status := 500, jsonBody := some { snapshotId := some "evil" } }

/-- In a batch with pairwise-distinct ids, the first matching edit for a
member's id is that member. -/
theorem find_edit_of_nodup (l : List FieldEdit) (e : FieldEdit)
    (hnd : (l.map FieldEdit.id).Nodup) (he : e ∈ l) :
    l.find? (fun x => x.id == e.id) = some e := by
  induction l with
  | nil => exact absurd he (List.not_mem_nil e)
  | cons a t ih =>
    rw [List.map_cons, List.nodup_cons] at hnd
    rcases List.mem_cons.mp he with rfl | he'
    · exact List.find?_cons_of_pos _ (by simp)
    · have hne : a.id ≠ e.id := fun hid =>
        hnd.1 (hid ▸ List.mem_map_of_mem FieldEdit.id he')
      exact (List.find?_cons_of_neg _ (by simp [hne])).trans (ih hnd.2 he')

/-- Capture equals the selector's filter followed by the projection to
`{id, innerText}`. -/
theorem captureEdits_eq_filter_map (dom : List DomRegion) :
    captureEdits dom = (dom.filter isCaptured).map
      (fun el => { id := el.parentId.getD "", innerText := el.innerText }) := by
  induction dom with
  | nil => rfl
  | cons el t ih =>
    rcases el with ⟨pid, ce, txt⟩
    cases pid <;> cases ce <;>
      simp [captureEdits, isCaptured, List.filter_cons, List.filterMap_cons] at ih ⊢ <;>
      simpa [captureEdits, isCaptured] using ih

/-- `getStaticProps` always returns one of the three prop shapes of the
source's return statements. -/
theorem getStaticProps_shape (p : Bool) (sid : String) (store : Store) :
    getStaticProps p sid store = normalProps ∨
    (∃ c, getStaticProps p sid store = previewProps sid c) ∨
    (∃ m, getStaticProps p sid store = errorProps m) := by
  cases p with
  | false => exact Or.inl rfl
  | true =>
    simp only [getStaticProps, if_true]
    cases store (sid ++ ".json") with
    | ok body =>
      cases body with
      | json c => exact Or.inr (Or.inl ⟨c, rfl⟩)
      | malformed => exact Or.inr (Or.inr ⟨msgUnknown, rfl⟩)
    | error e => exact Or.inr (Or.inr ⟨_, rfl⟩)

/-! ## Claim theorems -/

/-- C1: for every valid edit batch (including the empty batch), creating a
snapshot from the batch and then rendering the page in Preview mode with the
returned snapshotId yields exactly the submitted edits as the overlay: every
page region whose identifier matches a submitted edit renders that edit's
text, and every other region renders its default content. -/
theorem createSnapshot_preview_roundtrip (edits : List FieldEdit)
    (sid : String) (store : Store)
    (hvalid : (edits.map FieldEdit.id).Nodup) :
    getStaticProps true sid (createSnapshot store sid edits)
      = previewProps sid edits ∧
    homeEdits (getStaticProps true sid (createSnapshot store sid edits))
      = edits ∧
    (∀ r ∈ pageRegions, ∀ e ∈ edits, e.id = r.id →
      renderRegion
        (homeEdits (getStaticProps true sid (createSnapshot store sid edits)))
        r = e.innerText) ∧
    (∀ r ∈ pageRegions, (∀ e ∈ edits, e.id ≠ r.id) →
      renderRegion
        (homeEdits (getStaticProps true sid (createSnapshot store sid edits)))
        r = r.defaultText) := by
  have hprops : getStaticProps true sid (createSnapshot store sid edits)
      = previewProps sid edits := by
    simp [getStaticProps, createSnapshot, putObject, jsonParse]
  have hedits : homeEdits (getStaticProps true sid (createSnapshot store sid edits))
      = edits := by
    rw [hprops]; rfl
  refine ⟨hprops, hedits, ?_, ?_⟩
  · intro r _ e he hid
    rw [hedits, renderRegion, findEdit]
    have hfind : edits.find? (fun x => x.id == r.id) = some e := by
      rw [← hid]; exact find_edit_of_nodup edits e hvalid he
    rw [hfind]
  · intro r _ hnone
    rw [hedits, renderRegion, findEdit]
    have hfind : edits.find? (fun x => x.id == r.id) = none := by
      rw [List.find?_eq_none]
      intro x hx
      simpa using hnone x hx
    rw [hfind]

/-- Witness for C1 at the spec's end-to-end example: the batch
`[{id:"title", innerText:"Hello"}]` stored as snapshot `"abc123"` renders in
Preview as exactly that overlay. -/
theorem createSnapshot_preview_roundtrip_witness :
    ((([{ id := "title", innerText := "Hello" }] :
        List FieldEdit).map FieldEdit.id).Nodup) ∧
    getStaticProps true "abc123"
        (createSnapshot storeDown "abc123"
          [{ id := "title", innerText := "Hello" }])
      = previewProps "abc123" [{ id := "title", innerText := "Hello" }] :=
  ⟨by decide,
   (createSnapshot_preview_roundtrip [{ id := "title", innerText := "Hello" }]
     "abc123" storeDown (by decide)).1⟩

/-- C3: when the store read during preview fails, a 403 error is mapped to
the does-not-exist (NotFound) message and every other failure to the generic
message; and on every path the props carry either no message or one of those
two fixed messages, so no raw provider error reaches the user-facing
layer. -/
theorem store_error_mapping (sid : String) (store : Store) (e : S3Error)
    (hfail : store (sid ++ ".json") = Except.error e) :
    (e.statusCode = some 403 →
      getStaticProps true sid store = errorProps msgNotFound) ∧
    (e.statusCode ≠ some 403 →
      getStaticProps true sid store = errorProps msgUnknown) ∧
    (∀ (p : Bool) (s : String) (st : Store),
      (getStaticProps p s st).message = none ∨
      (getStaticProps p s st).message = some msgNotFound ∨
      (getStaticProps p s st).message = some msgUnknown) := by
  refine ⟨?_, ?_, ?_⟩
  · intro h403
    simp [getStaticProps, hfail, h403]
  · intro h403
    simp [getStaticProps, hfail, h403]
  · intro p s st
    cases p with
    | false => exact Or.inl rfl
    | true =>
      simp only [getStaticProps, if_true]
      cases st (s ++ ".json") with
      | ok body =>
        cases body with
        | json c => exact Or.inl rfl
        | malformed => exact Or.inr (Or.inr rfl)
      | error err =>
        by_cases h4 : err.statusCode = some 403
        · simp [h4, errorProps]
        · simp [h4, errorProps]

/-- Witness for C3: a store that answers 403 yields the does-not-exist
props. -/
theorem store_error_mapping_witness :
    getStaticProps true "snap" store403 = errorProps msgNotFound :=
  (store_error_mapping "snap" store403 { statusCode := some 403 } rfl).1 rfl

/-- C10: every fetch or parse failure during preview is caught inside
`getStaticProps`, which then returns props with `isPreview` false and
`hasError` true; `isPreview` and `hasError` are never both true; the error
path (indeed every `hasError` path) renders with an empty edits overlay; and
the embedding is a total function, so no exception propagates to the
renderer. -/
theorem getStaticProps_error_invariants :
    (∀ (p : Bool) (sid : String) (store : Store),
      ¬((getStaticProps p sid store).isPreview = true ∧
        (getStaticProps p sid store).hasError = true)) ∧
    (∀ (sid : String) (store : Store) (e : S3Error),
      store (sid ++ ".json") = Except.error e →
        (getStaticProps true sid store).isPreview = false ∧
        (getStaticProps true sid store).hasError = true ∧
        homeEdits (getStaticProps true sid store) = []) ∧
    (∀ (sid : String) (store : Store),
      store (sid ++ ".json") = Except.ok Body.malformed →
        getStaticProps true sid store = errorProps msgUnknown) ∧
    (∀ (p : Bool) (sid : String) (store : Store),
      (getStaticProps p sid store).hasError = true →
        homeEdits (getStaticProps p sid store) = []) := by
  refine ⟨?_, ?_, ?_, ?_⟩
  · intro p sid store h
    rcases getStaticProps_shape p sid store with hs | ⟨c, hs⟩ | ⟨m, hs⟩ <;>
      rw [hs] at h <;> simp [normalProps, previewProps, errorProps] at h
  · intro sid store e hfail
    have hs : getStaticProps true sid store
        = errorProps (if e.statusCode = some 403 then msgNotFound else msgUnknown) := by
      simp [getStaticProps, hfail]
    rw [hs]
    exact ⟨rfl, rfl, rfl⟩
  · intro sid store hmal
    simp [getStaticProps, hmal, jsonParse]
  · intro p sid store herr
    rcases getStaticProps_shape p sid store with hs | ⟨c, hs⟩ | ⟨m, hs⟩ <;>
      rw [hs] at herr ⊢
    · rfl
    · simp [previewProps] at herr
    · rfl

/-- Witness for C10: a stored object with malformed JSON is caught and
mapped to the generic error props. -/
theorem getStaticProps_error_invariants_witness :
    getStaticProps true "snap" storeMalformed = errorProps msgUnknown :=
  getStaticProps_error_invariants.2.2.1 "snap" storeMalformed rfl

/-- C2 (code bug): when the preview fetch fails with 403, `getStaticProps`
does return the does-not-exist message in `props.message`, and the page
still renders (default content, preview bar shown) — but the `Home`
component never renders `props.message` anywhere (the source's own comment
on line 113 reads `TODO: handle props.message when props.hasError`), so no
explanatory error message is user-visible, contrary to the claim. -/
theorem preview_error_message_not_rendered :
    (getStaticProps true "snap" store403).message = some msgNotFound ∧
    (homeRender (getStaticProps true "snap" store403) none).bannerMessage
      = none ∧
    (homeRender (getStaticProps true "snap" store403) none).showsPreviewBar
      = true ∧
    (homeRender (getStaticProps true "snap" store403) none).regionTexts
      = pageRegions.map (fun r => (r.id, r.defaultText)) := by
  refine ⟨rfl, rfl, rfl, ?_⟩
  rfl

/-- C6 (code bug): the share continuation never inspects `res.ok` (the
source's own comment on line 101 reads `TODO: handle !res.ok`), so a non-2xx
response whose JSON body carries a `snapshotId` field still takes the
success path: the snapshotId is stored and the share-link dialog is shown,
contrary to the claim that a failed save reports nothing to the user. -/
theorem share_failure_still_shows_dialog :
    failResponse.status = 500 ∧
    dialogShown
      (resolveShare (share [] initialClientState).1 failResponse) = true ∧
    (resolveShare (share [] initialClientState).1 failResponse).currentSnapshotId
      = some "evil" := by
  refine ⟨rfl, rfl, rfl⟩

/-- C4: with no save request outstanding, a share issues exactly one network
write; a second synchronous invocation is suppressed (it changes nothing and
issues no write); any invocation while the flag is set is suppressed; and
the suppression lasts exactly until the request settles, whereupon the flag
is cleared. -/
theorem share_single_flight (dom : List DomRegion) (s : ClientState)
    (h : s.hasSaveRequest = false) :
    ((share dom s).1.fetchCount = s.fetchCount + 1 ∧
      (share dom s).2 = some (captureEdits dom)) ∧
    share dom (share dom s).1 = ((share dom s).1, none) ∧
    (∀ s2 : ClientState, s2.hasSaveRequest = true → share dom s2 = (s2, none)) ∧
    (∀ resp : SaveResponse,
      (resolveShare (share dom s).1 resp).hasSaveRequest = false) := by
  refine ⟨⟨?_, ?_⟩, ?_, ?_, ?_⟩
  · simp [share, h, setSharing]
  · simp [share, h]
  · simp [share, h, setSharing]
  · intro s2 h2
    simp [share, h2]
  · intro resp
    cases hb : resp.jsonBody <;> simp [resolveShare, setSharing, hb]

/-- Witness for C4: two synchronous shares from the initial state issue
exactly one write in total, and the second is a no-op. -/
theorem share_single_flight_witness :
    (share [] initialClientState).1.fetchCount
        = initialClientState.fetchCount + 1 ∧
    share [] (share [] initialClientState).1
      = ((share [] initialClientState).1, none) :=
  ⟨((share_single_flight [] initialClientState rfl).1).1,
   (share_single_flight [] initialClientState rfl).2.1⟩

/-- C5: edit capture keeps, in document order, exactly the regions matched
by the selector (contenteditable elements whose container has an id),
pairing each container's id with the region's current text; in particular,
for regions with ids `b` then `a` in that DOM order, the capture is the edit
for `b` followed by the edit for `a`. -/
theorem captureEdits_pairing_and_order (dom : List DomRegion) :
    captureEdits dom = (dom.filter isCaptured).map
      (fun el => { id := el.parentId.getD "", innerText := el.innerText }) ∧
    (captureEdits dom).length = (dom.filter isCaptured).length ∧
    (∀ tb ta : String,
      captureEdits
        [ { parentId := some "b", contentEditable := true, innerText := tb }
        , { parentId := some "a", contentEditable := true, innerText := ta } ]
        = [ { id := "b", innerText := tb }, { id := "a", innerText := ta } ]) := by
  refine ⟨captureEdits_eq_filter_map dom, ?_, ?_⟩
  · rw [captureEdits_eq_filter_map dom, List.length_map]
  · intro tb ta
    rfl

/-- C7: edit capture over a page with zero regions matched by the selector
yields the empty sequence (and, being a total function, it never fails). -/
theorem captureEdits_empty_of_no_editable (dom : List DomRegion)
    (h : ∀ el ∈ dom, isCaptured el = false) :
    captureEdits dom = [] := by
  rw [captureEdits_eq_filter_map dom]
  have hfilter : dom.filter isCaptured = [] := by
    rw [List.filter_eq_nil_iff]
    intro a ha
    simp [h a ha]
  rw [hfilter]
  rfl

/-- Witness for C7: a page whose elements are either not contenteditable or
lack an identified container captures nothing. -/
theorem captureEdits_empty_witness :
    captureEdits
      [ { parentId := some "a", contentEditable := false, innerText := "t" }
      , { parentId := none, contentEditable := true, innerText := "u" } ]
      = [] :=
  captureEdits_empty_of_no_editable _ (by decide)

/-- C8: the snapshot is stored under the key `snapshotId ++ ".json"` as the
JSON array of its `{id, innerText}` pairs, touching no other key, and the
preview render reads exactly that key: the rendered props depend on the
store only through its value at `snapshotId ++ ".json"`. -/
theorem snapshot_key_layout (sid : String) (edits : List FieldEdit)
    (store : Store) :
    createSnapshot store sid edits (sid ++ ".json")
      = Except.ok (Body.json edits) ∧
    (∀ k, k ≠ sid ++ ".json" → createSnapshot store sid edits k = store k) ∧
    (∀ st st' : Store, st (sid ++ ".json") = st' (sid ++ ".json") →
      getStaticProps true sid st = getStaticProps true sid st') := by
  refine ⟨?_, ?_, ?_⟩
  · simp [createSnapshot, putObject]
  · intro k hk
    simp [createSnapshot, putObject, hk]
  · intro st st' hagree
    simp only [getStaticProps, if_true]
    rw [hagree]

/-- Witness for C8 at the spec's example: snapshot `"abc123"` lands under
key `"abc123.json"` as the expected JSON array. -/
theorem snapshot_key_layout_witness :
    createSnapshot storeDown "abc123" [{ id := "title", innerText := "Hello" }]
        ("abc123" ++ ".json")
      = Except.ok (Body.json [{ id := "title", innerText := "Hello" }]) :=
  (snapshot_key_layout "abc123" [{ id := "title", innerText := "Hello" }]
    storeDown).1

/-- C9 counterexample: with every recognized option absent from the
environment, the module-level startup still succeeds — the S3 client is
constructed with no validation, and the bucket variable is not even read at
startup — so the program does not fail fast at startup as claimed. -/
theorem startup_succeeds_without_config :
    (initS3 { awsAccessKeyId := none, awsSecretAccessKey := none
              awsBucket := none }).isOk = true := rfl

/-- C9 amended: absence of configuration does not fail startup — the
module-level construction succeeds for every environment — and a failing
store access surfaces only at first use, inside `getStaticProps`, where it
is caught and turned into error props rather than a startup failure. -/
theorem startup_never_validates_config (env : Env) (sid : String)
    (e : S3Error) :
    (initS3 env).isOk = true ∧
    (getStaticProps true sid (fun _ => Except.error e)).isPreview = false ∧
    (getStaticProps true sid (fun _ => Except.error e)).hasError = true := by
  refine ⟨rfl, ?_, ?_⟩ <;>
    by_cases h4 : e.statusCode = some 403 <;>
      simp [getStaticProps, h4, errorProps]

end PreviewDemo
